import Mathlib

/-!
Shallow embedding of `pyvista/core/datasetattributes.py` (class
`DataSetAttributes`, a dict-like adapter over a VTK attribute container).

Machine data is modelled exactly:
* a numpy `ndarray` is a shape, an element-unit stride vector, a dtype and a
  flat memory buffer (`NDArray`); strides are kept in element units, matching
  the source's `narray.strides[i] / narray.dtype.itemsize`;
* the VTK container is a list of named arrays (`VtkArr`), numeric
  (`vtkDataArray`) or not (plain `vtkAbstractArray`);
* Python exceptions become an explicit `PyErr` value; mutating operations
  return the post-call state together with the raised error, so that
  mutations that survive an exception stay observable.
-/

set_option autoImplicit false

/-- Element dtypes that the adapter distinguishes. -/
inductive DType where
  | bool
  | uint8
  | int64
  | float64
deriving DecidableEq, Repr

/-- Modelled from the spec: `pyvista.utilities.helpers.FieldAssociation`
(not under `src/`); the enumerated association tags {POINT, CELL, FIELD, ROW}
used by the adapter. -/
inductive FieldAssociation where
  | POINT
  | CELL
  | FIELD
  | ROW
deriving DecidableEq, Repr

/-- A numpy ndarray: logical shape, strides in element units, dtype, and the
underlying flat buffer.  Element `(i₀, …, iₖ)` lives at buffer offset
`Σ iⱼ · strides[j]`. -/
structure NDArray where
  shape : List Nat
  strides : List Nat
  dtype : DType
  data : List Int
deriving DecidableEq, Repr

/-- C-contiguous strides of a shape: stride of axis `j` is the product of the
dimensions after `j`. -/
def cStrides : List Nat → List Nat
  | [] => []
  | _ :: t => t.prod :: cStrides t

/-- All multi-indices of a shape, in row-major (C) order. -/
def allIndices : List Nat → List (List Nat)
  | [] => [[]]
  | n :: t => (List.range n).flatMap (fun i => (allIndices t).map (fun idx => i :: idx))

/-- Dot product of a stride vector with a multi-index. -/
def dotp : List Nat → List Nat → Nat
  | s :: ss, i :: is => s * i + dotp ss is
  | _, _ => 0

/-- Logical element of an array at a multi-index (0 beyond the buffer). -/
def NDArray.elemAt (a : NDArray) (idx : List Nat) : Int :=
  a.data.getD (dotp a.strides idx) 0

/-- `narray.flags.contiguous`: the strides are the C-contiguous strides of the
shape (the canonical case; numpy's degenerate-dimension allowances are not
claims-relevant because every code path below treats a non-canonical layout by
copying, which preserves logical elements). -/
def NDArray.isContiguous (a : NDArray) : Bool :=
  a.strides == cStrides a.shape

/-- `numpy.ascontiguousarray`: materialise the logical elements in row-major
order with canonical strides. -/
def contiguousCopy (a : NDArray) : NDArray :=
  { shape := a.shape, strides := cStrides a.shape, dtype := a.dtype,
    data := (allIndices a.shape).map a.elemAt }

/-- Swap the second and third entries of a list (used for shape and strides of
`transpose(0, 2, 1)`). -/
def swap12 : List Nat → List Nat
  | x :: y :: z :: rest => x :: z :: y :: rest
  | l => l

/-- `narray.transpose(0, 2, 1)`: permute axes 1 and 2 of shape and strides;
the buffer is untouched. -/
def NDArray.transpose021 (a : NDArray) : NDArray :=
  { a with shape := swap12 a.shape, strides := swap12 a.strides }

/-- `narray.reshape(n, m)` at a call site where `narray` is contiguous: the
buffer is reused with the new shape and its canonical strides. -/
def reshape2 (a : NDArray) (n m : Nat) : NDArray :=
  { shape := [n, m], strides := [m, 1], dtype := a.dtype, data := a.data }

/-- `numpy.empty(array_len)` followed by `.fill(x)`: a fresh 1-D float64
buffer of the required length filled with the scalar. -/
def scalarFill (array_len : Nat) (x : Int) : NDArray :=
  { shape := [array_len], strides := [1], dtype := DType.float64,
    data := List.replicate array_len x }

/-- `.view(numpy.uint8)` on a one-byte-element array: same buffer reinterpreted
as unsigned 8-bit integers. -/
def NDArray.viewUint8 (a : NDArray) : NDArray :=
  { a with dtype := DType.uint8 }

/-- `.view(numpy.bool)` on a one-byte-element array: same buffer reinterpreted
as booleans (a raw byte is logically true iff nonzero). -/
def NDArray.viewBool (a : NDArray) : NDArray :=
  { a with dtype := DType.bool }

/-- Element-wise equality of two arrays read as boolean arrays: same shape and,
at every index of the shape, the same logical truth value. -/
def boolEqElems (a b : NDArray) : Bool :=
  a.shape == b.shape &&
    (allIndices a.shape).all (fun idx => (a.elemAt idx != 0) == (b.elemAt idx != 0))

/-- One array held by the VTK container: a name, whether it is a numeric
`vtkDataArray` (as opposed to a bare `vtkAbstractArray`), and its contents. -/
structure VtkArr where
  name : String
  isNumeric : Bool
  dtype : DType
  shape : List Nat
  data : List Int
deriving DecidableEq, Repr

/-- The dataset's `association_bitarray_names`: per-association sets of names
whose true element type is boolean. -/
structure BitNames where
  pointNames : List String
  cellNames : List String
  fieldNames : List String
  rowNames : List String
deriving DecidableEq, Repr

/-- The set of boolean-flagged names for one association. -/
def BitNames.get (b : BitNames) : FieldAssociation → List String
  | FieldAssociation.POINT => b.pointNames
  | FieldAssociation.CELL => b.cellNames
  | FieldAssociation.FIELD => b.fieldNames
  | FieldAssociation.ROW => b.rowNames

/-- Python `set.add`: insert the name if it is not already present. -/
def insertName (l : List String) (n : String) : List String :=
  if l.contains n then l else n :: l

/-- Update the flag set of one association. -/
def BitNames.set (b : BitNames) (assoc : FieldAssociation) (l : List String) : BitNames :=
  match assoc with
  | FieldAssociation.POINT => { b with pointNames := l }
  | FieldAssociation.CELL => { b with cellNames := l }
  | FieldAssociation.FIELD => { b with fieldNames := l }
  | FieldAssociation.ROW => { b with rowNames := l }

/-- `association_bitarray_names[assoc].add(name)`. -/
def BitNames.add (b : BitNames) (assoc : FieldAssociation) (n : String) : BitNames :=
  b.set assoc (insertName (b.get assoc) n)

/-- `association_bitarray_names[assoc].remove(name)` wrapped in
`try/except KeyError: pass`: remove the name when present. -/
def BitNames.removeName (b : BitNames) (assoc : FieldAssociation) (n : String) : BitNames :=
  b.set assoc ((b.get assoc).filter (fun m => m ≠ n))

/-- A key accepted by the dict-like operations: an array name or an integer
position. -/
inductive ArrKey where
  | name (s : String)
  | idx (i : Int)
deriving DecidableEq, Repr

/-- How a key prints inside an error message. -/
def ArrKey.reprKey : ArrKey → String
  | ArrKey.name s => s
  | ArrKey.idx i => toString i

/-- Python exceptions raised by the adapter, with their messages. -/
inductive PyErr where
  | indexError (msg : String)
  | keyError (msg : String)
  | typeError (msg : String)
  | assertionError (msg : String)
  | valueError (msg : String)
  | attributeError (msg : String)
deriving DecidableEq, Repr

/-- Modelled from the spec: the external toolkit's get-array-by-name-or-index,
untyped variant (`vtkFieldData.GetAbstractArray`): first array with the given
name, or the array at a non-negative in-range position. -/
def GetAbstractArray (l : List VtkArr) (k : ArrKey) : Option VtkArr :=
  match k with
  | ArrKey.name s => l.find? (fun a => a.name == s)
  | ArrKey.idx i => if i < 0 then none else l.get? i.toNat

/-- Modelled from the spec: the external toolkit's typed get-array
(`vtkFieldData.GetArray`): the untyped lookup restricted to numeric arrays. -/
def GetArray (l : List VtkArr) (k : ArrKey) : Option VtkArr :=
  match GetAbstractArray l k with
  | some a => if a.isNumeric then some a else none
  | none => none

/-- Modelled from the spec: the external toolkit's add-array
(`vtkFieldData.AddArray`): replace the first array with the same name, or
append when the name is new. -/
def AddArray : List VtkArr → VtkArr → List VtkArr
  | [], arr => [arr]
  | a :: rest, arr => if a.name == arr.name then arr :: rest else a :: AddArray rest arr

/-- Remove the first array with the given name. -/
def removeByName : List VtkArr → String → List VtkArr
  | [], _ => []
  | a :: rest, s => if a.name == s then rest else a :: removeByName rest s

/-- Modelled from the spec: the external toolkit's remove-array
(`vtkFieldData.RemoveArray`), keyed by name or by position. -/
def RemoveArray (l : List VtkArr) (k : ArrKey) : List VtkArr :=
  match k with
  | ArrKey.name s => removeByName l s
  | ArrKey.idx i => if i < 0 then l else l.eraseIdx i.toNat

/-- The adapter's state: the association tag, the owning dataset's point and
cell counts, the shared boolean-flag registry, the wrapped container's arrays,
the registered texture-coordinate array, and the modified mark. -/
structure DataSetAttributes where
  association : FieldAssociation
  numPoints : Nat
  numCells : Nat
  bitNames : BitNames
  arrays : List VtkArr
  tcoords : Option VtkArr
  modified : Bool
deriving DecidableEq, Repr

/-- Modelled from the spec: `pyvista_ndarray.from_vtk_data_array` (not under
`src/`); wraps a native array as a typed numeric array carrying the same
contents, laid out contiguously. -/
def from_vtk_data_array (v : VtkArr) : NDArray :=
  { shape := v.shape, strides := cStrides v.shape, dtype := v.dtype, data := v.data }

/-- `DataSetAttributes._raise_index_out_of_bounds`: raise `IndexError` iff the
key is an integer at least the current array count (negative keys pass). -/
def DataSetAttributes.raise_index_out_of_bounds (st : DataSetAttributes) (index : ArrKey) :
    Except PyErr Unit :=
  let max_index := st.arrays.length
  match index with
  | ArrKey.idx i =>
      if i ≥ (max_index : Int) then
        Except.error (PyErr.indexError s!"Array index ({i}) out of range [0, {max_index}]")
      else Except.ok ()
  | ArrKey.name _ => Except.ok ()

/-- The value produced by a successful `get_array`: a wrapped typed numeric
array (retaining the native array's name) or the raw untyped array. -/
inductive GetResult where
  | ndarr (vtkName : String) (a : NDArray)
  | abstract (a : VtkArr)
deriving DecidableEq, Repr

/-- `get_array` lines 114-117: wrap a found numeric array as a
`pyvista_ndarray`, reinterpreting it as boolean when its name is registered in
the boolean-flag set of this association. -/
def DataSetAttributes.wrap_typed (st : DataSetAttributes) (varr : VtkArr) : GetResult :=
  let narray := from_vtk_data_array varr
  if (st.bitNames.get st.association).contains varr.name then
    GetResult.ndarr varr.name narray.viewBool
  else
    GetResult.ndarr varr.name narray

/-- `DataSetAttributes.get_array`: bounds-guard the key, look up a typed numeric
array, fall back to the untyped container, raise `KeyError` when neither
exists. -/
def DataSetAttributes.get_array (st : DataSetAttributes) (key : ArrKey) :
    Except PyErr GetResult :=
  match st.raise_index_out_of_bounds key with
  | Except.error e => Except.error e
  | Except.ok _ =>
    match GetArray st.arrays key with
    | some varr => Except.ok (st.wrap_typed varr)
    | none =>
      match GetAbstractArray st.arrays key with
      | some arr => Except.ok (GetResult.abstract arr)
      | none => Except.error (PyErr.keyError s!"\x22{key.reprKey}\x22")

/-- The value `narray` holds inside `append` after the list/tuple conversion: a
plain Python scalar (no `dtype` attribute), a numpy scalar (a `dtype` but an
empty `shape`), or a numpy ndarray. -/
inductive NpVal where
  | pyScal (x : Int)
  | npScal (d : DType) (x : Int)
  | nd (a : NDArray)
deriving DecidableEq, Repr

/-- Python attribute access `narray.dtype`: raises `AttributeError` on a plain
Python scalar. -/
def NpVal.dtypeAttr : NpVal → Except PyErr DType
  | NpVal.pyScal _ => Except.error (PyErr.attributeError "object has no attribute dtype")
  | NpVal.npScal d _ => Except.ok d
  | NpVal.nd a => Except.ok a.dtype

/-- Python expression `narray.shape[0]`: `AttributeError` on a plain scalar
(no `shape`), `IndexError` on an empty shape tuple. -/
def NpVal.shape0 : NpVal → Except PyErr Nat
  | NpVal.pyScal _ => Except.error (PyErr.attributeError "object has no attribute shape")
  | NpVal.npScal _ _ => Except.error (PyErr.indexError "tuple index out of range")
  | NpVal.nd a =>
    match a.shape with
    | [] => Except.error (PyErr.indexError "tuple index out of range")
    | n :: _ => Except.ok n

/-- `narray.view(numpy.uint8)` applied to the matched value. -/
def NpVal.viewU8 : NpVal → NpVal
  | NpVal.pyScal x => NpVal.pyScal x
  | NpVal.npScal _ x => NpVal.npScal DType.uint8 x
  | NpVal.nd a => NpVal.nd a.viewUint8

/-- `append` lines 142-149: the required first-axis length, computed from the
association (point count, cell count, the value's own first-axis length for
ROW, and for FIELD the value's first-axis length when it is an ndarray,
otherwise 1). -/
def DataSetAttributes.required_array_len (st : DataSetAttributes) (v : NpVal) :
    Except PyErr Nat :=
  match st.association with
  | FieldAssociation.POINT => Except.ok st.numPoints
  | FieldAssociation.CELL => Except.ok st.numCells
  | FieldAssociation.ROW => v.shape0
  | FieldAssociation.FIELD =>
    match v with
    | NpVal.nd _ => v.shape0
    | _ => Except.ok 1

/-- `append` lines 155-158: scalar / zero-dimensional input is broadcast into a
fresh buffer of the required length (other values pass through). -/
def fixup_scalar (v : NpVal) (array_len : Nat) : NDArray :=
  match v with
  | NpVal.pyScal x => scalarFill array_len x
  | NpVal.npScal _ x => scalarFill array_len x
  | NpVal.nd a => if a.shape.length == 0 then scalarFill array_len (a.data.getD 0 0) else a

/-- `append` lines 161-171: for a rank-3 array, transpose axes 1 and 2 when the
per-matrix layout is the hard-coded column-order stride pattern, or the
row-order pattern on a non-contiguous array. -/
def matrix_layout_fixup (a : NDArray) : NDArray :=
  let s1 := a.strides.getD 1 0
  let s2 := a.strides.getD 2 0
  if (s1 == 3 && s2 == 1) || (s1 == 1 && s2 == 3 && !a.isContiguous) then
    a.transpose021
  else a

/-- `append` lines 138-191, after the None check and list conversion.  Returns
the post-call state together with the raised error, because the boolean-flag
registration mutates shared state before validation can fail. -/
def DataSetAttributes.append_core (st : DataSetAttributes) (v0 : NpVal) (name : String)
    (deep_copy : Bool) : DataSetAttributes × Option PyErr :=
  match v0.dtypeAttr with
  | Except.error e => (st, some e)
  | Except.ok d =>
    let st1 := if d == DType.bool then
        { st with bitNames := st.bitNames.add st.association name }
      else st
    let v := if d == DType.bool then v0.viewU8 else v0
    match st1.required_array_len v with
    | Except.error e => (st1, some e)
    | Except.ok array_len =>
      match v.shape0 with
      | Except.error e => (st1, some e)
      | Except.ok s0 =>
        if s0 ≠ array_len then
          (st1, some (PyErr.valueError
            s!"narray length of ({s0}) != required length ({array_len})"))
        else
          let narr := fixup_scalar v array_len
          let shape := narr.shape
          let narr := if shape.length == 3 then matrix_layout_fixup narr else narr
          let narr := if narr.isContiguous then narr else contiguousCopy narr
          let narr := if shape.length == 3 then
              reshape2 narr (shape.getD 0 0) (shape.getD 1 0 * shape.getD 2 0)
            else narr
          let varr : VtkArr :=
            { name := name, isNumeric := true, dtype := narr.dtype,
              shape := narr.shape, data := narr.data }
          ({ st1 with arrays := AddArray st1.arrays varr, modified := true }, none)

/-- The raw argument of `append`: `None`, a list/tuple, or a value. -/
inductive NpInput where
  | noneInput
  | pylist (xs : List Int)
  | pyScalar (x : Int)
  | npScalar (d : DType) (x : Int)
  | nd (a : NDArray)
deriving DecidableEq, Repr

/-- Modelled from the spec: `pyvista_ndarray.from_iter` (not under `src/`);
converts list/tuple input into a one-dimensional numeric array. -/
def from_iter (xs : List Int) : NDArray :=
  { shape := [xs.length], strides := [1], dtype := DType.int64, data := xs }

/-- `DataSetAttributes.append`: reject `None`, convert list/tuple input, then
run the core path (boolean-flag registration, length validation, scalar
broadcast, matrix layout fixup, flatten, store). -/
def DataSetAttributes.append (st : DataSetAttributes) (input : NpInput) (name : String)
    (deep_copy : Bool) : DataSetAttributes × Option PyErr :=
  match input with
  | NpInput.noneInput => (st, some (PyErr.typeError "narray cannot be None."))
  | NpInput.pylist xs => st.append_core (NpVal.nd (from_iter xs)) name deep_copy
  | NpInput.pyScalar x => st.append_core (NpVal.pyScal x) name deep_copy
  | NpInput.npScalar d x => st.append_core (NpVal.npScal d x) name deep_copy
  | NpInput.nd a => st.append_core (NpVal.nd a) name deep_copy

/-- The name a `get_array` result reports through `.GetName()`. -/
def GetResult.resolvedName : GetResult → String
  | GetResult.ndarr n _ => n
  | GetResult.abstract a => a.name

/-- `DataSetAttributes.remove`: bounds-guard, resolve the key to a name through
`get_array`, clear the boolean-flag registration, remove from the container,
mark modified. -/
def DataSetAttributes.remove (st : DataSetAttributes) (key : ArrKey) :
    DataSetAttributes × Option PyErr :=
  match st.raise_index_out_of_bounds key with
  | Except.error e => (st, some e)
  | Except.ok _ =>
    match st.get_array key with
    | Except.error e => (st, some e)
    | Except.ok res =>
      let name := res.resolvedName
      ({ st with
          bitNames := st.bitNames.removeName st.association name,
          arrays := RemoveArray st.arrays key,
          modified := true }, none)

/-- `DataSetAttributes.pop`: bounds-guard, deep-copy the typed array found for
the key, remove it, and return the copy wrapped as a typed numeric array (the
deep copy is value-identity in a pure model; when the typed lookup finds
nothing the returned value is modelled as absent). -/
def DataSetAttributes.pop (st : DataSetAttributes) (key : ArrKey) :
    (DataSetAttributes × Option PyErr) × Option NDArray :=
  match st.raise_index_out_of_bounds key with
  | Except.error e => ((st, some e), none)
  | Except.ok _ =>
    let varr := GetArray st.arrays key
    match st.remove key with
    | (st1, some e) => ((st1, some e), none)
    | (st1, none) => ((st1, none), varr.map from_vtk_data_array)

/-- `DataSetAttributes.keys`: the non-empty names of the held arrays, in
container order. -/
def DataSetAttributes.keys (st : DataSetAttributes) : List String :=
  (st.arrays.map (fun a => a.name)).filter (fun n => n ≠ "")

/-- `DataSetAttributes.values`: every array with a non-empty name, wrapped as a
typed numeric array (without any boolean-flag reinterpretation). -/
def DataSetAttributes.values (st : DataSetAttributes) : List NDArray :=
  (st.arrays.filter (fun a => a.name ≠ "")).map from_vtk_data_array

/-- `DataSetAttributes.items`: the keys zipped with the values. -/
def DataSetAttributes.items (st : DataSetAttributes) : List (String × NDArray) :=
  st.keys.zip st.values

/-- `__contains__`: membership of a name among the keys. -/
def DataSetAttributes.contains_item (st : DataSetAttributes) (item : String) : Bool :=
  st.keys.contains item

/-- `DataSetAttributes.valid_array_len`: the required first-axis length for new
arrays (point or cell count), or `none` when unrestricted. -/
def DataSetAttributes.valid_array_len (st : DataSetAttributes) : Option Nat :=
  match st.association with
  | FieldAssociation.POINT => some st.numPoints
  | FieldAssociation.CELL => some st.numCells
  | _ => none

/-- How `'{}'.format` prints the valid length (an int or Python `None`). -/
def fmtOptNat : Option Nat → String
  | some n => toString n
  | none => "None"

/-- The argument of the texture-coordinate setter: a numpy array or anything
else. -/
inductive TCoordsInput where
  | nonArray
  | arr (a : NDArray)
deriving DecidableEq, Repr

/-- Modelled from the spec: `vtk.numpy_interface.dataset_adapter.numpyTovtkDataArray`
(external toolkit); converts a numpy array into a named native array with the
same contents. -/
def numpyTovtkDataArray (a : NDArray) (name : String) : VtkArr :=
  { name := name, isNumeric := true, dtype := a.dtype, shape := a.shape,
    data := (contiguousCopy a).data }

/-- The `t_coords` setter: require a numpy array, exactly 2-dimensional, with
first-axis length equal to the valid array length and exactly 2 components;
on success register the texture-coordinate array and mark modified. -/
def DataSetAttributes.set_t_coords (st : DataSetAttributes) (t : TCoordsInput) :
    DataSetAttributes × Option PyErr :=
  match t with
  | TCoordsInput.nonArray =>
      (st, some (PyErr.typeError "Texture coordinates must be a numpy array"))
  | TCoordsInput.arr a =>
    if a.shape.length ≠ 2 then
      (st, some (PyErr.assertionError "Texture coordinates must be a 2-dimensional array"))
    else
      let valid_length := st.valid_array_len
      if some (a.shape.getD 0 0) ≠ valid_length then
        (st, some (PyErr.assertionError
          s!"Number of texture coordinates ({a.shape.getD 0 0}) must match number of points ({fmtOptNat valid_length})"))
      else if a.shape.getD 1 0 ≠ 2 then
        (st, some (PyErr.assertionError
          s!"Texture coordinates must only have 2 components, not ({a.shape.getD 1 0})"))
      else
        ({ st with tcoords := some (numpyTovtkDataArray a "Texture Coordinates"),
                   modified := true }, none)

/-- The getter of `t_coords`: the registered texture-coordinate array, wrapped,
or nothing. -/
def DataSetAttributes.t_coords (st : DataSetAttributes) : Option NDArray :=
  st.tcoords.map from_vtk_data_array

/-- Whether a raised error is the length-mismatch `ValueError` of `append`. -/
def isLengthMismatch : Option PyErr → Bool
  | some (PyErr.valueError _) => true
  | _ => false

/-! ## Concrete states used to exercise the model -/

/-- An empty boolean-flag registry. -/
def demoBit : BitNames := ⟨[], [], [], []⟩

/-- A POINT attribute set of a dataset with 4 points and no arrays. -/
def demo4 : DataSetAttributes :=
  { association := FieldAssociation.POINT, numPoints := 4, numCells := 0,
    bitNames := demoBit, arrays := [], tcoords := none, modified := false }

/-- A POINT attribute set of a dataset with 1 point and no arrays. -/
def demo1 : DataSetAttributes :=
  { association := FieldAssociation.POINT, numPoints := 1, numCells := 0,
    bitNames := demoBit, arrays := [], tcoords := none, modified := false }

/-- A POINT attribute set of a dataset with 2 points and no arrays. -/
def demo2 : DataSetAttributes :=
  { association := FieldAssociation.POINT, numPoints := 2, numCells := 0,
    bitNames := demoBit, arrays := [], tcoords := none, modified := false }

/-- A stored numeric uint8 array named "mask". -/
def maskArr : VtkArr :=
  { name := "mask", isNumeric := true, dtype := DType.uint8, shape := [4],
    data := [1, 0, 1, 0] }

/-- A stored non-numeric (abstract-only) array named "labels". -/
def labelsArr : VtkArr :=
  { name := "labels", isNumeric := false, dtype := DType.int64, shape := [4],
    data := [3, 3, 3, 3] }

/-- A POINT attribute set holding a numeric array, an abstract array, and a
boolean-flag registration for "mask". -/
def demoMix : DataSetAttributes :=
  { association := FieldAssociation.POINT, numPoints := 4, numCells := 0,
    bitNames := ⟨["mask"], [], [], []⟩, arrays := [maskArr, labelsArr],
    tcoords := none, modified := false }

/-! ## Helper lemmas about the embedding -/

theorem length_allIndices (shape : List Nat) : (allIndices shape).length = shape.prod := by
  induction shape with
  | nil => simp [allIndices]
  | cons n t ih =>
    simp only [allIndices, List.length_flatMap, List.map_map]
    have h1 : ∀ i : Nat, (((allIndices t).map (fun idx => i :: idx)).length) = t.prod := by
      intro i; simp [ih]
    calc ((List.range n).map fun i => ((allIndices t).map (fun idx => i :: idx)).length).sum
        = ((List.range n).map fun _ => t.prod).sum := by
          apply congrArg; apply List.map_congr_left; intro i _; simp [ih]
      _ = (n :: t).prod := by
          simp [List.map_const, List.sum_replicate, List.prod_cons, Nat.mul_comm]

theorem flatMap_get? {α β : Type} (g : α → List β) (P : Nat) (hP : ∀ x, (g x).length = P) :
    ∀ (l : List α) (j d : Nat) (x : α), l.get? j = some x → d < P →
      (l.flatMap g).get? (P * j + d) = (g x).get? d := by
  intro l
  induction l with
  | nil => intro j d x hj _; simp at hj
  | cons a l ih =>
    intro j d x hj hd
    match j with
    | 0 =>
      simp only [List.get?] at hj
      cases hj
      simp only [List.flatMap_cons, Nat.mul_zero, Nat.zero_add]
      exact List.get?_append (by rw [hP a]; exact hd)
    | Nat.succ j =>
      simp only [List.get?] at hj
      have hlen : (g a).length ≤ P * (j + 1) + d := by
        rw [hP a, Nat.mul_succ]
        omega
      rw [List.flatMap_cons, List.get?_append_right hlen]
      have harith : P * (j + 1) + d - (g a).length = P * j + d := by
        rw [hP a, Nat.mul_succ]; omega
      rw [harith]
      exact ih j d x hj hd

theorem get?_allIndices : ∀ (shape idx : List Nat), idx ∈ allIndices shape →
    (allIndices shape).get? (dotp (cStrides shape) idx) = some idx := by
  intro shape
  induction shape with
  | nil =>
    intro idx h
    simp [allIndices] at h
    subst h
    rfl
  | cons n t ih =>
    intro idx h
    simp only [allIndices, List.mem_flatMap] at h
    obtain ⟨i, hi, hmem⟩ := h
    simp only [List.mem_map] at hmem
    obtain ⟨rest, hrest, hidx⟩ := hmem
    subst hidx
    have hrec := ih rest hrest
    have hd : dotp (cStrides t) rest < t.prod := by
      have := (List.get?_eq_some.mp hrec).1
      rw [length_allIndices] at this
      exact this
    have hP : ∀ i : Nat, ((allIndices t).map (fun idx => i :: idx)).length = t.prod := by
      intro i; simp [length_allIndices]
    have hrange : (List.range n).get? i = some i :=
      List.get?_range (List.mem_range.mp hi)
    have := flatMap_get? (fun i => (allIndices t).map (fun idx => i :: idx)) t.prod hP
      (List.range n) i (dotp (cStrides t) rest) i hrange hd
    simp only [allIndices, cStrides, dotp]
    rw [this, List.get?_map, hrec]
    rfl

theorem elemAt_contiguousCopy (a : NDArray) (idx : List Nat) (h : idx ∈ allIndices a.shape) :
    (contiguousCopy a).elemAt idx = a.elemAt idx := by
  show ((allIndices a.shape).map a.elemAt).getD (dotp (cStrides a.shape) idx) 0 = a.elemAt idx
  rw [List.getD_eq_get?, List.get?_map, get?_allIndices a.shape idx h]
  rfl

theorem find?_AddArray (l : List VtkArr) (v : VtkArr) :
    (AddArray l v).find? (fun a => a.name == v.name) = some v := by
  induction l with
  | nil => simp [AddArray, List.find?]
  | cons a l ih =>
    by_cases h : a.name = v.name
    · simp [AddArray, h, List.find?]
    · have hb : (a.name == v.name) = false := beq_false_of_ne h
      simp only [AddArray, hb, if_false, Bool.false_eq_true]
      rw [List.find?_cons, hb]
      exact ih

theorem find?_AddArray_name (l : List VtkArr) (v : VtkArr) (s : String) (hs : v.name = s) :
    (AddArray l v).find? (fun a => a.name == s) = some v := by
  subst hs
  exact find?_AddArray l v

theorem BitNames.get_add_self (b : BitNames) (assoc : FieldAssociation) (n : String) :
    ((b.add assoc n).get assoc).contains n = true := by
  have hins : (insertName (b.get assoc) n).contains n = true := by
    unfold insertName
    by_cases h : (b.get assoc).contains n = true
    · rw [if_pos h]; exact h
    · rw [if_neg h]; simp
  cases assoc <;> simpa [BitNames.add, BitNames.set, BitNames.get] using hins

theorem BitNames.get_removeName_self (b : BitNames) (assoc : FieldAssociation) (n : String) :
    ((b.removeName assoc n).get assoc).contains n = false := by
  have hf : (((b.get assoc).filter (fun m => m ≠ n)).contains n) = false := by
    simp [List.mem_filter]
  cases assoc <;> simpa [BitNames.removeName, BitNames.set, BitNames.get] using hf

/-! ## Claims -/

/-- C1: the spec claims that appending a scalar to a 4-point POINT attribute
set broadcasts it into `[5,5,5,5]`.  The code instead raises before ever
reaching its scalar-broadcast branch: with a plain Python scalar the
`narray.dtype` access raises `AttributeError`, and with a numpy scalar the
`narray.shape[0]` length check raises `IndexError` on the empty shape.  This
theorem evaluates `append` at the failing inputs. -/
theorem C1_scalar_append_raises :
    demo4.append (NpInput.pyScalar 5) "temp" false
        = (demo4, some (PyErr.attributeError "object has no attribute dtype"))
    ∧ demo4.append (NpInput.npScalar DType.int64 5) "temp" false
        = (demo4, some (PyErr.indexError "tuple index out of range")) := by
  constructor <;> rfl

/-- C2: for a non-scalar value (an ndarray of rank at least 1) whose first-axis
length differs from the association-required length computed by `append`
(point count for POINT, cell count for CELL, the value's own first-axis length
for ROW), `append` raises the length-mismatch `ValueError`; under FIELD no
length-mismatch error is ever raised. -/
theorem C2_append_length_mismatch (st : DataSetAttributes) (a : NDArray) (nm : String)
    (dc : Bool) (n : Nat) (rest : List Nat) (hsh : a.shape = n :: rest) :
    ((st.association = FieldAssociation.POINT ∨ st.association = FieldAssociation.CELL ∨
        st.association = FieldAssociation.ROW) →
      ∀ req : Nat, st.required_array_len (NpVal.nd a) = Except.ok req → n ≠ req →
        (st.append (NpInput.nd a) nm dc).2
          = some (PyErr.valueError s!"narray length of ({n}) != required length ({req})"))
    ∧ (st.association = FieldAssociation.FIELD →
        isLengthMismatch (st.append (NpInput.nd a) nm dc).2 = false) := by
  have hshape0 : ∀ d : DType, (NpVal.nd { a with dtype := d }).shape0 = Except.ok n := by
    intro d
    simp [NpVal.shape0, hsh]
  have hshape0a : (NpVal.nd a).shape0 = Except.ok n := by
    simp [NpVal.shape0, hsh]
  constructor
  · rintro hassoc req hreq hne
    by_cases hb : a.dtype = DType.bool
    · rcases hassoc with h | h | h <;>
      · simp only [DataSetAttributes.required_array_len, h, hshape0a] at hreq
        first
        | (injection hreq with hreq)
        | skip
        simp only [DataSetAttributes.append, DataSetAttributes.append_core, NpVal.dtypeAttr,
          hb, beq_self_eq_true, if_true, NpVal.viewU8, NDArray.viewUint8,
          DataSetAttributes.required_array_len, h, hshape0]
        first
        | (subst hreq; simp [hne])
        | (cases hreq; simp [hne])
        all_goals exact absurd rfl hne
    · have hbne : (a.dtype == DType.bool) = false := beq_false_of_ne hb
      rcases hassoc with h | h | h <;>
      · simp only [DataSetAttributes.required_array_len, h, hshape0a] at hreq
        first
        | (injection hreq with hreq)
        | skip
        simp only [DataSetAttributes.append, DataSetAttributes.append_core, NpVal.dtypeAttr,
          hbne, Bool.false_eq_true, if_false,
          DataSetAttributes.required_array_len, h, hshape0a]
        first
        | (subst hreq; simp [hne])
        | (cases hreq; simp [hne])
        all_goals exact absurd rfl hne
  · intro h
    by_cases hb : a.dtype = DType.bool
    · simp [DataSetAttributes.append, DataSetAttributes.append_core, NpVal.dtypeAttr,
        hb, NpVal.viewU8, NDArray.viewUint8, DataSetAttributes.required_array_len, h,
        hshape0, NpVal.shape0, hsh, isLengthMismatch]
    · have hbne : (a.dtype == DType.bool) = false := beq_false_of_ne hb
      simp [DataSetAttributes.append, DataSetAttributes.append_core, NpVal.dtypeAttr,
        hbne, DataSetAttributes.required_array_len, h, hshape0a, isLengthMismatch]

/-- Witness for C2: on a 4-point POINT attribute set, appending a length-2
int64 array raises the length-mismatch `ValueError`. -/
theorem C2_append_length_mismatch_witness :
    (demo4.append (NpInput.nd ⟨[2], [1], DType.int64, [7, 8]⟩) "temp" false).2
        = some (PyErr.valueError "narray length of (2) != required length (4)") :=
  (C2_append_length_mismatch demo4 ⟨[2], [1], DType.int64, [7, 8]⟩ "temp" false 2 [] rfl).1
    (Or.inl rfl) 4 rfl (by decide)

/-- C4: when `append` receives a boolean-element array whose first-axis length
fails the length validation, the name has already been registered in the
boolean-flag set of the association when the `ValueError` is raised, the
registration survives the error, and no array is stored. -/
theorem C4_bool_flag_registered_before_length_error (st : DataSetAttributes) (a : NDArray)
    (nm : String) (dc : Bool) (n : Nat) (rest : List Nat)
    (hdt : a.dtype = DType.bool) (hsh : a.shape = n :: rest)
    (req : Nat) (hreq : st.required_array_len (NpVal.nd a) = Except.ok req) (hne : n ≠ req) :
    isLengthMismatch (st.append (NpInput.nd a) nm dc).2 = true
    ∧ (((st.append (NpInput.nd a) nm dc).1.bitNames.get st.association).contains nm) = true
    ∧ (st.append (NpInput.nd a) nm dc).1.arrays = st.arrays := by
  have hshape0 : ∀ d : DType, (NpVal.nd { a with dtype := d }).shape0 = Except.ok n := by
    intro d
    simp [NpVal.shape0, hsh]
  have happ : st.append (NpInput.nd a) nm dc
      = ({ st with bitNames := st.bitNames.add st.association nm },
         some (PyErr.valueError s!"narray length of ({n}) != required length ({req})")) := by
    cases hassoc : st.association
    case POINT =>
      simp only [DataSetAttributes.required_array_len, hassoc] at hreq
      injection hreq with hreq
      subst hreq
      simp [DataSetAttributes.append, DataSetAttributes.append_core, NpVal.dtypeAttr, hdt,
        NpVal.viewU8, NDArray.viewUint8, DataSetAttributes.required_array_len, hassoc,
        hshape0, NpVal.shape0, hsh, hne]
    case CELL =>
      simp only [DataSetAttributes.required_array_len, hassoc] at hreq
      injection hreq with hreq
      subst hreq
      simp [DataSetAttributes.append, DataSetAttributes.append_core, NpVal.dtypeAttr, hdt,
        NpVal.viewU8, NDArray.viewUint8, DataSetAttributes.required_array_len, hassoc,
        hshape0, NpVal.shape0, hsh, hne]
    case ROW =>
      simp only [DataSetAttributes.required_array_len, hassoc, NpVal.shape0, hsh] at hreq
      injection hreq with hreq
      exact absurd hreq hne
    case FIELD =>
      simp only [DataSetAttributes.required_array_len, hassoc, NpVal.shape0, hsh] at hreq
      injection hreq with hreq
      exact absurd hreq hne
  rw [happ]
  refine ⟨rfl, ?_, rfl⟩
  exact BitNames.get_add_self st.bitNames st.association nm

/-- Witness for C4: appending a length-2 boolean array to a 4-point POINT
attribute set raises the length mismatch, yet leaves "flag" registered as
boolean while storing nothing. -/
theorem C4_bool_flag_registered_before_length_error_witness :
    isLengthMismatch ((demo4.append (NpInput.nd ⟨[2], [1], DType.bool, [1, 0]⟩) "flag" false).2)
        = true
    ∧ (((demo4.append (NpInput.nd ⟨[2], [1], DType.bool, [1, 0]⟩) "flag" false).1.bitNames.get
        demo4.association).contains "flag") = true
    ∧ (demo4.append (NpInput.nd ⟨[2], [1], DType.bool, [1, 0]⟩) "flag" false).1.arrays
        = demo4.arrays :=
  C4_bool_flag_registered_before_length_error demo4 ⟨[2], [1], DType.bool, [1, 0]⟩ "flag" false
    2 [] rfl rfl 4 rfl (by decide)

/-- C5: `get_array` raises `IndexError` for an integer key at least the array
count; otherwise a key naming no array raises `KeyError`, a key resolving to a
typed numeric array returns it first (wrapped), a key resolving only in the
untyped container returns the raw array, and an in-range integer behaves the
same on the indexed array (a negative integer falls through both container
lookups into `KeyError`). -/
theorem C5_get_array_lookup_order (st : DataSetAttributes) :
    (∀ i : Int, (st.arrays.length : Int) ≤ i →
        st.get_array (ArrKey.idx i)
          = Except.error (PyErr.indexError s!"Array index ({i}) out of range [0, {st.arrays.length}]"))
    ∧ (∀ s : String, st.arrays.find? (fun a => a.name == s) = none →
        st.get_array (ArrKey.name s) = Except.error (PyErr.keyError s!"\x22{s}\x22"))
    ∧ (∀ (s : String) (varr : VtkArr), st.arrays.find? (fun a => a.name == s) = some varr →
        st.get_array (ArrKey.name s)
          = Except.ok (if varr.isNumeric then st.wrap_typed varr else GetResult.abstract varr))
    ∧ (∀ (i : Nat) (varr : VtkArr), st.arrays.get? i = some varr →
        st.get_array (ArrKey.idx i)
          = Except.ok (if varr.isNumeric then st.wrap_typed varr else GetResult.abstract varr))
    ∧ (∀ i : Int, i < 0 →
        st.get_array (ArrKey.idx i) = Except.error (PyErr.keyError s!"\x22{i}\x22")) := by
  refine ⟨?_, ?_, ?_, ?_, ?_⟩
  · intro i hi
    simp [DataSetAttributes.get_array, DataSetAttributes.raise_index_out_of_bounds, hi,
      ArrKey.reprKey]
  · intro s hs
    simp [DataSetAttributes.get_array, DataSetAttributes.raise_index_out_of_bounds,
      GetArray, GetAbstractArray, hs, ArrKey.reprKey]
  · intro s varr hs
    by_cases hnum : varr.isNumeric = true
    · simp [DataSetAttributes.get_array, DataSetAttributes.raise_index_out_of_bounds,
        GetArray, GetAbstractArray, hs, hnum]
    · simp [DataSetAttributes.get_array, DataSetAttributes.raise_index_out_of_bounds,
        GetArray, GetAbstractArray, hs, hnum]
  · intro i varr hi
    have hlt : (i : Int) < (st.arrays.length : Int) := by
      have := (List.get?_eq_some.mp hi).1
      exact_mod_cast this
    have hguard : ¬ ((i : Int) ≥ (st.arrays.length : Int)) := not_le.mpr hlt
    have hneg : ¬ ((i : Int) < 0) := by omega
    have hi2 : st.arrays[i]? = some varr := by
      rw [← List.get?_eq_getElem?]; exact hi
    by_cases hnum : varr.isNumeric = true
    · simp [DataSetAttributes.get_array, DataSetAttributes.raise_index_out_of_bounds, hguard,
        GetArray, GetAbstractArray, hneg, Int.toNat_ofNat, hi2, hnum]
    · simp [DataSetAttributes.get_array, DataSetAttributes.raise_index_out_of_bounds, hguard,
        GetArray, GetAbstractArray, hneg, Int.toNat_ofNat, hi2, hnum]
  · intro i hi
    have hguard : ¬ (i ≥ (st.arrays.length : Int)) := by omega
    simp only [DataSetAttributes.get_array, DataSetAttributes.raise_index_out_of_bounds,
      ge_iff_le, hguard, if_false, GetArray, GetAbstractArray, hi, if_true, ArrKey.reprKey]
    rfl

/-- Witness for C5: in a container with a numeric "mask" array and an
abstract-only "labels" array, lookup by existing name succeeds, a negative
integer key falls to `KeyError`, and an integer key equal to the array count
raises `IndexError`. -/
theorem C5_get_array_lookup_order_witness :
    demoMix.get_array (ArrKey.name "mask") = Except.ok (demoMix.wrap_typed maskArr)
    ∧ demoMix.get_array (ArrKey.name "labels") = Except.ok (GetResult.abstract labelsArr)
    ∧ demoMix.get_array (ArrKey.idx (-5)) = Except.error (PyErr.keyError "\x22-5\x22")
    ∧ demoMix.get_array (ArrKey.idx 2)
        = Except.error (PyErr.indexError "Array index (2) out of range [0, 2]") := by
  refine ⟨?_, ?_, ?_, ?_⟩
  · exact (C5_get_array_lookup_order demoMix).2.2.1 "mask" maskArr rfl
  · exact (C5_get_array_lookup_order demoMix).2.2.1 "labels" labelsArr rfl
  · exact (C5_get_array_lookup_order demoMix).2.2.2.2 (-5) (by decide)
  · exact (C5_get_array_lookup_order demoMix).1 2 (by decide)

/-- C9: the shared index-bounds guard raises exactly when an integer key is at
least the current array count; every negative integer key passes the guard and
is handed to the underlying container lookups, which find nothing there, so
`get_array` ends in `KeyError` rather than the guard's `IndexError`. -/
theorem C9_negative_index_guard (st : DataSetAttributes) :
    (∀ i : Int, (∃ e, st.raise_index_out_of_bounds (ArrKey.idx i) = Except.error e)
        ↔ (st.arrays.length : Int) ≤ i)
    ∧ (∀ i : Int, i < 0 →
        st.raise_index_out_of_bounds (ArrKey.idx i) = Except.ok ()
        ∧ GetArray st.arrays (ArrKey.idx i) = none
        ∧ GetAbstractArray st.arrays (ArrKey.idx i) = none
        ∧ st.get_array (ArrKey.idx i) = Except.error (PyErr.keyError s!"\x22{i}\x22")) := by
  constructor
  · intro i
    constructor
    · rintro ⟨e, he⟩
      by_contra hlt
      simp [DataSetAttributes.raise_index_out_of_bounds, hlt] at he
    · intro hge
      refine ⟨PyErr.indexError s!"Array index ({i}) out of range [0, {st.arrays.length}]", ?_⟩
      simp [DataSetAttributes.raise_index_out_of_bounds, hge]
  · intro i hi
    have hguard : ¬ (i ≥ (st.arrays.length : Int)) := by omega
    refine ⟨?_, ?_, ?_, ?_⟩
    · simp [DataSetAttributes.raise_index_out_of_bounds, hguard]
    · simp [GetArray, GetAbstractArray, hi]
    · simp [GetAbstractArray, hi]
    · simp only [DataSetAttributes.get_array, DataSetAttributes.raise_index_out_of_bounds,
        ge_iff_le, hguard, if_false, GetArray, GetAbstractArray, hi, if_true, ArrKey.reprKey]
      rfl

/-- Witness for C9: on the two-array demonstration container, the guard raises
at key 5, does not raise at key -3, and `get_array` at -3 is the lookup's
`KeyError`. -/
theorem C9_negative_index_guard_witness :
    (∃ e, demoMix.raise_index_out_of_bounds (ArrKey.idx 5) = Except.error e)
    ∧ demoMix.raise_index_out_of_bounds (ArrKey.idx (-3)) = Except.ok ()
    ∧ demoMix.get_array (ArrKey.idx (-3)) = Except.error (PyErr.keyError "\x22-3\x22") := by
  refine ⟨?_, ?_, ?_⟩
  · exact ((C9_negative_index_guard demoMix).1 5).mpr (by decide)
  · exact ((C9_negative_index_guard demoMix).2 (-3) (by decide)).1
  · exact ((C9_negative_index_guard demoMix).2 (-3) (by decide)).2.2.2

/-- C7: on a POINT attribute set the texture-coordinate setter raises
`TypeError` for a non-array input and `AssertionError` when the input is not
2-dimensional, when its first-axis length is not the point count, or when its
second axis is not exactly 2 components (citing the offending component
count); only an input passing all checks is registered as the
texture-coordinate array with the container marked modified. -/
theorem C7_t_coords_setter (st : DataSetAttributes)
    (hpt : st.association = FieldAssociation.POINT) :
    (st.set_t_coords TCoordsInput.nonArray
        = (st, some (PyErr.typeError "Texture coordinates must be a numpy array")))
    ∧ (∀ a : NDArray, a.shape.length ≠ 2 →
        st.set_t_coords (TCoordsInput.arr a)
          = (st, some (PyErr.assertionError
              "Texture coordinates must be a 2-dimensional array")))
    ∧ (∀ (a : NDArray) (p k : Nat), a.shape = [p, k] → p ≠ st.numPoints →
        st.set_t_coords (TCoordsInput.arr a)
          = (st, some (PyErr.assertionError
              s!"Number of texture coordinates ({p}) must match number of points ({st.numPoints})")))
    ∧ (∀ (a : NDArray) (p k : Nat), a.shape = [p, k] → p = st.numPoints → k ≠ 2 →
        st.set_t_coords (TCoordsInput.arr a)
          = (st, some (PyErr.assertionError
              s!"Texture coordinates must only have 2 components, not ({k})")))
    ∧ (∀ (a : NDArray) (p : Nat), a.shape = [p, 2] → p = st.numPoints →
        st.set_t_coords (TCoordsInput.arr a)
          = ({ st with
                tcoords := some (numpyTovtkDataArray a "Texture Coordinates"),
                modified := true }, none)) := by
  refine ⟨rfl, ?_, ?_, ?_, ?_⟩
  · intro a ha
    simp [DataSetAttributes.set_t_coords, ha]
  · intro a p k hsh hne
    simp only [DataSetAttributes.set_t_coords, hsh, DataSetAttributes.valid_array_len, hpt,
      fmtOptNat, List.length_cons, List.length_nil, List.getD]
    rw [if_neg (by simp)]
    rw [if_pos (by simp [hne])]
    rfl
  · intro a p k hsh hp hk
    subst hp
    simp [DataSetAttributes.set_t_coords, hsh, DataSetAttributes.valid_array_len, hpt,
      fmtOptNat, hk]
  · intro a p hsh hp
    subst hp
    simp [DataSetAttributes.set_t_coords, hsh, DataSetAttributes.valid_array_len, hpt,
      fmtOptNat]

/-- Witness for C7: on the 4-point demonstration set, a (4,3) float array is
rejected citing 2 expected components, and a (4,2) array is registered. -/
theorem C7_t_coords_setter_witness :
    demo4.set_t_coords
        (TCoordsInput.arr ⟨[4, 3], [3, 1], DType.float64, [0, 0, 0, 1, 1, 1, 2, 2, 2, 3, 3, 3]⟩)
      = (demo4, some (PyErr.assertionError
          "Texture coordinates must only have 2 components, not (3)"))
    ∧ demo4.set_t_coords
        (TCoordsInput.arr ⟨[4, 2], [2, 1], DType.float64, [0, 0, 1, 1, 2, 2, 3, 3]⟩)
      = ({ demo4 with
            tcoords := some (numpyTovtkDataArray
              ⟨[4, 2], [2, 1], DType.float64, [0, 0, 1, 1, 2, 2, 3, 3]⟩ "Texture Coordinates"),
            modified := true }, none) :=
  ⟨(C7_t_coords_setter demo4 rfl).2.2.2.1
      ⟨[4, 3], [3, 1], DType.float64, [0, 0, 0, 1, 1, 1, 2, 2, 2, 3, 3, 3]⟩ 4 3 rfl rfl
      (by decide),
   (C7_t_coords_setter demo4 rfl).2.2.2.2
      ⟨[4, 2], [2, 1], DType.float64, [0, 0, 1, 1, 2, 2, 3, 3]⟩ 4 rfl rfl⟩

theorem items_eq (st : DataSetAttributes) :
    st.items = (st.arrays.filter (fun a => a.name ≠ "")).map
      (fun a => (a.name, from_vtk_data_array a)) := by
  show (st.keys.zip st.values) = _
  have hkeys : st.keys = (st.arrays.filter (fun a => a.name ≠ "")).map (fun a => a.name) := by
    show ((st.arrays.map (fun a => a.name)).filter (fun n => n ≠ "")) = _
    rw [List.map_filter]
    rfl
  rw [hkeys]
  show ((st.arrays.filter (fun a => a.name ≠ "")).map (fun a => a.name)).zip
      ((st.arrays.filter (fun a => a.name ≠ "")).map from_vtk_data_array) = _
  rw [List.zip_map']

/-- C10: for a name registered in the boolean-flag set whose stored array is a
numeric uint8 array, `get_array` returns the boolean-reinterpreted view, while
the corresponding entries of `values` and `items` are the wrapped stored array
without reinterpretation, still typed uint8. -/
theorem C10_values_items_skip_bool_view (st : DataSetAttributes) (nm : String) (varr : VtkArr)
    (hlook : st.arrays.find? (fun a => a.name == nm) = some varr)
    (hnum : varr.isNumeric = true)
    (hflag : ((st.bitNames.get st.association).contains nm) = true)
    (hdt : varr.dtype = DType.uint8)
    (hnm : nm ≠ "") :
    st.get_array (ArrKey.name nm)
        = Except.ok (GetResult.ndarr nm ((from_vtk_data_array varr).viewBool))
    ∧ (from_vtk_data_array varr).viewBool.dtype = DType.bool
    ∧ (from_vtk_data_array varr) ∈ st.values
    ∧ (from_vtk_data_array varr).dtype = DType.uint8
    ∧ (nm, from_vtk_data_array varr) ∈ st.items := by
  have hname : varr.name = nm := by
    have := List.find?_some hlook
    exact eq_of_beq this
  have hmem : varr ∈ st.arrays := List.mem_of_find?_eq_some hlook
  have hmemf : varr ∈ st.arrays.filter (fun a => a.name ≠ "") := by
    rw [List.mem_filter]
    refine ⟨hmem, ?_⟩
    simp [hname, hnm]
  refine ⟨?_, rfl, ?_, ?_, ?_⟩
  · have hflag2 : nm ∈ st.bitNames.get st.association := by simpa using hflag
    simp [DataSetAttributes.get_array, DataSetAttributes.raise_index_out_of_bounds,
      GetArray, GetAbstractArray, hlook, hnum, DataSetAttributes.wrap_typed, hname, hflag2]
  · show from_vtk_data_array varr ∈ (st.arrays.filter (fun a => a.name ≠ "")).map from_vtk_data_array
    exact List.mem_map_of_mem from_vtk_data_array hmemf
  · simp [from_vtk_data_array, hdt]
  · rw [items_eq]
    have := List.mem_map_of_mem (fun a => (a.name, from_vtk_data_array a)) hmemf
    simpa [hname] using this

/-- Witness for C10: in the demonstration state, "mask" is flagged boolean and
stored as uint8; `get_array` returns the boolean view while `values` and
`items` expose the uint8 array. -/
theorem C10_values_items_skip_bool_view_witness :
    demoMix.get_array (ArrKey.name "mask")
        = Except.ok (GetResult.ndarr "mask" ((from_vtk_data_array maskArr).viewBool))
    ∧ (from_vtk_data_array maskArr).viewBool.dtype = DType.bool
    ∧ (from_vtk_data_array maskArr) ∈ demoMix.values
    ∧ (from_vtk_data_array maskArr).dtype = DType.uint8
    ∧ ("mask", from_vtk_data_array maskArr) ∈ demoMix.items :=
  C10_values_items_skip_bool_view demoMix "mask" maskArr rfl rfl (by decide) rfl (by decide)

theorem get_array_found (st : DataSetAttributes) (nm : String) (varr : VtkArr)
    (hfind : st.arrays.find? (fun x => x.name == nm) = some varr)
    (hnum : varr.isNumeric = true) :
    ∃ b : NDArray, st.get_array (ArrKey.name nm) = Except.ok (GetResult.ndarr varr.name b)
      ∧ b.shape = varr.shape ∧ b.data = varr.data := by
  by_cases hf : varr.name ∈ st.bitNames.get st.association
  · refine ⟨(from_vtk_data_array varr).viewBool, ?_, rfl, rfl⟩
    simp [DataSetAttributes.get_array, DataSetAttributes.raise_index_out_of_bounds,
      GetArray, GetAbstractArray, hfind, hnum, DataSetAttributes.wrap_typed, hf]
  · refine ⟨from_vtk_data_array varr, ?_, rfl, rfl⟩
    simp [DataSetAttributes.get_array, DataSetAttributes.raise_index_out_of_bounds,
      GetArray, GetAbstractArray, hfind, hnum, DataSetAttributes.wrap_typed, hf]

/-- C6: a rank-3 input of shape (N, r, c) accepted by `append` is handed to the
container with rank 2 and shape (N, r·c), and reading it back by name (absent
any reshape) yields an array of that flattened shape. -/
theorem C6_rank3_stored_flattened (st : DataSetAttributes) (a : NDArray) (nm : String)
    (dc : Bool) (N r c : Nat) (hsh : a.shape = [N, r, c])
    (hok : (st.append (NpInput.nd a) nm dc).2 = none) :
    (∃ varr : VtkArr,
        (st.append (NpInput.nd a) nm dc).1.arrays.find? (fun x => x.name == nm) = some varr
        ∧ varr.shape = [N, r * c] ∧ varr.shape.length = 2)
    ∧ (∃ b : NDArray,
        (st.append (NpInput.nd a) nm dc).1.get_array (ArrKey.name nm)
          = Except.ok (GetResult.ndarr nm b)
        ∧ b.shape = [N, r * c]) := by
  obtain ⟨sh, strd, dt, dat⟩ := a
  change sh = [N, r, c] at hsh
  subst hsh
  have key : ∃ varr : VtkArr,
      (st.append (NpInput.nd ⟨[N, r, c], strd, dt, dat⟩) nm dc).1.arrays.find?
          (fun x => x.name == nm) = some varr
      ∧ varr.shape = [N, r * c] ∧ varr.isNumeric = true ∧ varr.name = nm := by
    have hbcases : (dt == DType.bool) = true ∨ (dt == DType.bool) = false := by
      by_cases hb : dt = DType.bool
      · exact Or.inl (beq_iff_eq.mpr hb)
      · exact Or.inr (beq_false_of_ne hb)
    rcases hbcases with hbeq | hbeq <;>
    · cases hassoc : st.association
      case POINT =>
        by_cases hN : N = st.numPoints
        · simp only [DataSetAttributes.append, DataSetAttributes.append_core,
            NpVal.dtypeAttr, hbeq, if_true, if_false, Bool.false_eq_true, NpVal.viewU8,
            NDArray.viewUint8, DataSetAttributes.required_array_len, hassoc, NpVal.shape0]
          rw [if_neg (by simp [hN])]
          refine ⟨_, find?_AddArray_name _ _ nm rfl, ?_, ?_, ?_⟩ <;> rfl
        · exfalso
          revert hok
          simp [DataSetAttributes.append, DataSetAttributes.append_core, NpVal.dtypeAttr,
            hbeq, NpVal.viewU8, NDArray.viewUint8, DataSetAttributes.required_array_len,
            hassoc, NpVal.shape0, hN]
      case CELL =>
        by_cases hN : N = st.numCells
        · simp only [DataSetAttributes.append, DataSetAttributes.append_core,
            NpVal.dtypeAttr, hbeq, if_true, if_false, Bool.false_eq_true, NpVal.viewU8,
            NDArray.viewUint8, DataSetAttributes.required_array_len, hassoc, NpVal.shape0]
          rw [if_neg (by simp [hN])]
          refine ⟨_, find?_AddArray_name _ _ nm rfl, ?_, ?_, ?_⟩ <;> rfl
        · exfalso
          revert hok
          simp [DataSetAttributes.append, DataSetAttributes.append_core, NpVal.dtypeAttr,
            hbeq, NpVal.viewU8, NDArray.viewUint8, DataSetAttributes.required_array_len,
            hassoc, NpVal.shape0, hN]
      case ROW =>
        simp only [DataSetAttributes.append, DataSetAttributes.append_core,
          NpVal.dtypeAttr, hbeq, if_true, if_false, Bool.false_eq_true, NpVal.viewU8,
          NDArray.viewUint8, DataSetAttributes.required_array_len, hassoc, NpVal.shape0]
        rw [if_neg (by simp)]
        refine ⟨_, find?_AddArray_name _ _ nm rfl, ?_, ?_, ?_⟩ <;> rfl
      case FIELD =>
        simp only [DataSetAttributes.append, DataSetAttributes.append_core,
          NpVal.dtypeAttr, hbeq, if_true, if_false, Bool.false_eq_true, NpVal.viewU8,
          NDArray.viewUint8, DataSetAttributes.required_array_len, hassoc, NpVal.shape0]
        rw [if_neg (by simp)]
        refine ⟨_, find?_AddArray_name _ _ nm rfl, ?_, ?_, ?_⟩ <;> rfl
  obtain ⟨varr, hfind, hshape, hnum, hname⟩ := key
  constructor
  · exact ⟨varr, hfind, hshape, by rw [hshape]; rfl⟩
  · obtain ⟨b, hget, hbshape, _⟩ :=
      get_array_found (st.append (NpInput.nd ⟨[N, r, c], strd, dt, dat⟩) nm dc).1 nm varr
        hfind hnum
    rw [hname] at hget
    exact ⟨b, hget, by rw [hbshape, hshape]⟩

/-- Witness for C6: a contiguous (2,2,2) int64 array appended to a 2-point
POINT attribute set is stored with shape (2,4) and read back with shape
(2,4). -/
theorem C6_rank3_stored_flattened_witness :
    (∃ varr : VtkArr,
        (demo2.append (NpInput.nd ⟨[2, 2, 2], [4, 2, 1], DType.int64, [1, 2, 3, 4, 5, 6, 7, 8]⟩)
            "t" false).1.arrays.find? (fun x => x.name == "t") = some varr
        ∧ varr.shape = [2, 4] ∧ varr.shape.length = 2)
    ∧ (∃ b : NDArray,
        (demo2.append (NpInput.nd ⟨[2, 2, 2], [4, 2, 1], DType.int64, [1, 2, 3, 4, 5, 6, 7, 8]⟩)
            "t" false).1.get_array (ArrKey.name "t")
          = Except.ok (GetResult.ndarr "t" b)
        ∧ b.shape = [2, 4]) :=
  C6_rank3_stored_flattened demo2 ⟨[2, 2, 2], [4, 2, 1], DType.int64, [1, 2, 3, 4, 5, 6, 7, 8]⟩
    "t" false 2 2 2 rfl rfl

theorem GetArray_eq_some (l : List VtkArr) (k : ArrKey) (v : VtkArr)
    (h : GetArray l k = some v) :
    GetAbstractArray l k = some v ∧ v.isNumeric = true := by
  unfold GetArray at h
  cases habs : GetAbstractArray l k with
  | none => rw [habs] at h; exact absurd h (by simp)
  | some w =>
    rw [habs] at h
    change (if w.isNumeric = true then some w else none) = some v at h
    by_cases hw : w.isNumeric = true
    · rw [if_pos hw] at h
      injection h with h
      subst h
      exact ⟨rfl, hw⟩
    · rw [if_neg hw] at h
      exact absurd h (by simp)

theorem guard_ok_of_abstract (st : DataSetAttributes) (k : ArrKey) (v : VtkArr)
    (h : GetAbstractArray st.arrays k = some v) :
    st.raise_index_out_of_bounds k = Except.ok () := by
  cases k with
  | name s => rfl
  | idx i =>
    unfold GetAbstractArray at h
    change (if i < 0 then none else st.arrays.get? i.toNat) = some v at h
    by_cases hi : i < 0
    · rw [if_pos hi] at h; exact absurd h (by simp)
    · rw [if_neg hi] at h
      have hlt : i.toNat < st.arrays.length := (List.get?_eq_some.mp h).1
      have hguard : ¬ (i ≥ (st.arrays.length : Int)) := by omega
      simp [DataSetAttributes.raise_index_out_of_bounds, hguard]

theorem resolvedName_wrap_typed (st : DataSetAttributes) (v : VtkArr) :
    (st.wrap_typed v).resolvedName = v.name := by
  unfold DataSetAttributes.wrap_typed
  split <;> rfl

theorem map_eraseIdx {α β : Type} (f : α → β) :
    ∀ (l : List α) (j : Nat), (l.eraseIdx j).map f = (l.map f).eraseIdx j := by
  intro l
  induction l with
  | nil => intro j; simp
  | cons a l ih =>
    intro j
    cases j with
    | zero => simp [List.eraseIdx]
    | succ j => simp [List.eraseIdx, ih j]

theorem nodup_get?_not_mem_eraseIdx {α : Type} :
    ∀ (l : List α) (j : Nat) (x : α), l.Nodup → l.get? j = some x → x ∉ l.eraseIdx j := by
  intro l
  induction l with
  | nil => intro j x _ hj; simp at hj
  | cons a l ih =>
    intro j x hnd hj
    rcases List.nodup_cons.mp hnd with ⟨hna, hndl⟩
    cases j with
    | zero =>
      simp only [List.get?] at hj
      cases hj
      simpa [List.eraseIdx] using hna
    | succ j =>
      simp only [List.get?] at hj
      have hxl : x ∈ l := by
        have := (List.get?_eq_some.mp hj).2
        exact this ▸ List.get_mem l _ _
      simp only [List.eraseIdx, List.mem_cons]
      rintro (hax | hmem)
      · exact hna (hax ▸ hxl)
      · exact ih j x hndl hj hmem

theorem not_mem_map_removeByName :
    ∀ (l : List VtkArr) (s : String), (l.map (fun a => a.name)).Nodup →
      s ∉ (removeByName l s).map (fun a => a.name) := by
  intro l
  induction l with
  | nil => intro s _; simp [removeByName]
  | cons a l ih =>
    intro s hnd
    rcases List.nodup_cons.mp hnd with ⟨hna, hndl⟩
    by_cases ha : a.name = s
    · rw [removeByName, if_pos (beq_iff_eq.mpr ha)]
      exact ha ▸ hna
    · rw [removeByName, if_neg (by simpa using ha)]
      simp only [List.map_cons, List.mem_cons]
      rintro (has | hmem)
      · exact ha has.symm
      · exact ih s hndl hmem

/-- C8: for a key resolving to a stored typed numeric array (in a container
with distinct names), `pop` returns the stored array wrapped as a typed
numeric array with exactly the stored contents, and leaves the attribute set
in the very state `remove` produces: the array is gone from the keys, and the
boolean-flag registration for the name is cleared. -/
theorem C8_pop_returns_and_removes (st : DataSetAttributes) (key : ArrKey) (varr : VtkArr)
    (hget : GetArray st.arrays key = some varr)
    (hnd : (st.arrays.map (fun a => a.name)).Nodup) :
    st.pop key = (st.remove key, some (from_vtk_data_array varr))
    ∧ (st.remove key).2 = none
    ∧ (from_vtk_data_array varr).data = varr.data
    ∧ (st.remove key).1.contains_item varr.name = false
    ∧ (((st.remove key).1.bitNames.get st.association).contains varr.name) = false := by
  obtain ⟨habs, hnum⟩ := GetArray_eq_some st.arrays key varr hget
  have hguard := guard_ok_of_abstract st key varr habs
  have hgetarr : st.get_array key = Except.ok (st.wrap_typed varr) := by
    simp [DataSetAttributes.get_array, hguard, hget]
  have hrem : st.remove key
      = ({ st with
            bitNames := st.bitNames.removeName st.association varr.name,
            arrays := RemoveArray st.arrays key,
            modified := true }, none) := by
    simp [DataSetAttributes.remove, hguard, hgetarr, resolvedName_wrap_typed]
  have hpop : st.pop key = (st.remove key, some (from_vtk_data_array varr)) := by
    simp [DataSetAttributes.pop, hguard, hget, hrem]
  have hnotmem : varr.name ∉ (RemoveArray st.arrays key).map (fun a => a.name) := by
    cases key with
    | name s =>
      have hfind : st.arrays.find? (fun a => a.name == s) = some varr := habs
      have hname : varr.name = s := by
        have h3 := List.find?_some hfind
        simpa using h3
      show varr.name ∉ (removeByName st.arrays s).map (fun a => a.name)
      rw [hname]
      exact not_mem_map_removeByName st.arrays s hnd
    | idx i =>
      have h2 : (if i < 0 then none else st.arrays.get? i.toNat) = some varr := habs
      by_cases hi : i < 0
      · rw [if_pos hi] at h2; exact absurd h2 (by simp)
      · rw [if_neg hi] at h2
        show varr.name ∉ (RemoveArray st.arrays (ArrKey.idx i)).map (fun a => a.name)
        have hrw : RemoveArray st.arrays (ArrKey.idx i) = st.arrays.eraseIdx i.toNat := by
          simp [RemoveArray, hi]
        rw [hrw, map_eraseIdx]
        apply nodup_get?_not_mem_eraseIdx (st.arrays.map (fun a => a.name)) i.toNat varr.name hnd
        rw [List.get?_map, h2]
        rfl
  refine ⟨hpop, by rw [hrem], rfl, ?_, ?_⟩
  · rw [hrem]
    simp [DataSetAttributes.contains_item, DataSetAttributes.keys, List.mem_filter, hnotmem]
  · rw [hrem]
    exact BitNames.get_removeName_self st.bitNames st.association varr.name

/-- Witness for C8: popping "mask" from the demonstration container returns
the stored uint8 array and matches the state `remove` produces, with
"mask" no longer present and its boolean flag cleared. -/
theorem C8_pop_returns_and_removes_witness :
    demoMix.pop (ArrKey.name "mask")
        = (demoMix.remove (ArrKey.name "mask"), some (from_vtk_data_array maskArr))
    ∧ (demoMix.remove (ArrKey.name "mask")).2 = none
    ∧ (from_vtk_data_array maskArr).data = maskArr.data
    ∧ (demoMix.remove (ArrKey.name "mask")).1.contains_item "mask" = false
    ∧ (((demoMix.remove (ArrKey.name "mask")).1.bitNames.get demoMix.association).contains
        "mask") = false :=
  C8_pop_returns_and_removes demoMix (ArrKey.name "mask") maskArr rfl (by decide)

/-- Counterexample to C3 as stated: a (1,2,2) boolean array has boolean element
type and valid first-axis length on a 1-point POINT attribute set, yet the
round trip returns a (1,4) array — flattened by the rank-3 path — which is not
element-wise equal to the input (the shapes differ). -/
theorem C3_bool_roundtrip_rank3_counterexample :
    (demo1.append (NpInput.nd ⟨[1, 2, 2], [4, 2, 1], DType.bool, [1, 0, 0, 1]⟩) "m" false).2
        = none
    ∧ (demo1.append (NpInput.nd ⟨[1, 2, 2], [4, 2, 1], DType.bool, [1, 0, 0, 1]⟩) "m"
          false).1.get_array (ArrKey.name "m")
        = Except.ok (GetResult.ndarr "m" ⟨[1, 4], [4, 1], DType.bool, [1, 0, 0, 1]⟩)
    ∧ boolEqElems ⟨[1, 4], [4, 1], DType.bool, [1, 0, 0, 1]⟩
        ⟨[1, 2, 2], [4, 2, 1], DType.bool, [1, 0, 0, 1]⟩ = false
    ∧ ([1, 4] : List Nat) ≠ [1, 2, 2] := by
  refine ⟨rfl, rfl, by decide, by decide⟩

/-- C3 (amended to arrays of rank at most 2, as the rank-3 counterexample
forces): appending a boolean array with valid first-axis length registers the
name as boolean, stores the buffer as uint8, and `get_array` returns a
boolean-typed array element-wise equal to the input. -/
theorem C3_bool_roundtrip_rank_le_2 (st : DataSetAttributes) (b : NDArray) (nm : String)
    (hdt : b.dtype = DType.bool) (hrk : b.shape.length ≤ 2)
    (n : Nat) (rest : List Nat) (hsh : b.shape = n :: rest)
    (req : Nat) (hreq : st.required_array_len (NpVal.nd b) = Except.ok req) (hlen : n = req) :
    (st.append (NpInput.nd b) nm false).2 = none
    ∧ (((st.append (NpInput.nd b) nm false).1.bitNames.get st.association).contains nm) = true
    ∧ ∃ a : NDArray,
        (st.append (NpInput.nd b) nm false).1.get_array (ArrKey.name nm)
          = Except.ok (GetResult.ndarr nm a)
        ∧ a.dtype = DType.bool
        ∧ boolEqElems a b = true := by
  obtain ⟨sh, strd, dt, dat⟩ := b
  change dt = DType.bool at hdt
  subst hdt
  change sh = n :: rest at hsh
  subst hsh
  set bU : NDArray := ⟨n :: rest, strd, DType.uint8, dat⟩ with hbU
  set narr2 : NDArray := if bU.isContiguous = true then bU else contiguousCopy bU with hnarr2
  have h3 : ((n :: rest).length == 3) = false := by
    have : (n :: rest).length ≤ 2 := hrk
    simp only [beq_eq_false_iff_ne]
    omega
  have h0 : ((n :: rest).length == 0) = false := by
    simp
  have hshape2 : narr2.shape = n :: rest := by
    rw [hnarr2]
    split <;> rfl
  have hdtype2 : narr2.dtype = DType.uint8 := by
    rw [hnarr2]
    split <;> rfl
  have happ : st.append (NpInput.nd ⟨n :: rest, strd, DType.bool, dat⟩) nm false
      = ({ st with
            bitNames := st.bitNames.add st.association nm,
            arrays := AddArray st.arrays
              { name := nm, isNumeric := true, dtype := narr2.dtype,
                shape := narr2.shape, data := narr2.data },
            modified := true }, none) := by
    cases hassoc : st.association
    case POINT =>
      simp only [DataSetAttributes.required_array_len, hassoc] at hreq
      injection hreq with hreq
      subst hreq
      subst hlen
      simp only [DataSetAttributes.append, DataSetAttributes.append_core, NpVal.dtypeAttr,
        beq_self_eq_true, if_true, NpVal.viewU8, NDArray.viewUint8,
        DataSetAttributes.required_array_len, hassoc, NpVal.shape0, fixup_scalar,
        h0, h3, Bool.false_eq_true, if_false, hnarr2]
      rw [if_neg (by simp)]
    case CELL =>
      simp only [DataSetAttributes.required_array_len, hassoc] at hreq
      injection hreq with hreq
      subst hreq
      subst hlen
      simp only [DataSetAttributes.append, DataSetAttributes.append_core, NpVal.dtypeAttr,
        beq_self_eq_true, if_true, NpVal.viewU8, NDArray.viewUint8,
        DataSetAttributes.required_array_len, hassoc, NpVal.shape0, fixup_scalar,
        h0, h3, Bool.false_eq_true, if_false, hnarr2]
      rw [if_neg (by simp)]
    case ROW =>
      simp only [DataSetAttributes.append, DataSetAttributes.append_core, NpVal.dtypeAttr,
        beq_self_eq_true, if_true, NpVal.viewU8, NDArray.viewUint8,
        DataSetAttributes.required_array_len, hassoc, NpVal.shape0, fixup_scalar,
        h0, h3, Bool.false_eq_true, if_false, hnarr2]
      rw [if_neg (by simp)]
    case FIELD =>
      simp only [DataSetAttributes.append, DataSetAttributes.append_core, NpVal.dtypeAttr,
        beq_self_eq_true, if_true, NpVal.viewU8, NDArray.viewUint8,
        DataSetAttributes.required_array_len, hassoc, NpVal.shape0, fixup_scalar,
        h0, h3, Bool.false_eq_true, if_false, hnarr2]
      rw [if_neg (by simp)]
  have hflag : ((st.bitNames.add st.association nm).get st.association).contains nm = true :=
    BitNames.get_add_self st.bitNames st.association nm
  refine ⟨by rw [happ], by rw [happ]; exact hflag, ?_⟩
  refine ⟨(from_vtk_data_array
      { name := nm, isNumeric := true, dtype := narr2.dtype,
        shape := narr2.shape, data := narr2.data }).viewBool, ?_, rfl, ?_⟩
  · rw [happ]
    have hfind : (AddArray st.arrays
        { name := nm, isNumeric := true, dtype := narr2.dtype,
          shape := narr2.shape, data := narr2.data }).find? (fun x => x.name == nm)
        = some { name := nm, isNumeric := true, dtype := narr2.dtype,
                 shape := narr2.shape, data := narr2.data } :=
      find?_AddArray_name _ _ nm rfl
    have hflag2 : nm ∈ ((st.bitNames.add st.association nm).get st.association) := by
      simpa using hflag
    simp [DataSetAttributes.get_array, DataSetAttributes.raise_index_out_of_bounds,
      GetArray, GetAbstractArray, hfind, DataSetAttributes.wrap_typed, hflag2]
  · have hview : (from_vtk_data_array
        { name := nm, isNumeric := true, dtype := narr2.dtype,
          shape := narr2.shape, data := narr2.data }).viewBool
        = ⟨n :: rest, cStrides (n :: rest), DType.bool, narr2.data⟩ := by
      simp [from_vtk_data_array, NDArray.viewBool, hshape2]
    rw [hview]
    have helem : ∀ idx ∈ allIndices (n :: rest),
        NDArray.elemAt ⟨n :: rest, cStrides (n :: rest), DType.bool, narr2.data⟩ idx
          = NDArray.elemAt ⟨n :: rest, strd, DType.bool, dat⟩ idx := by
      intro idx hidx
      by_cases hc : bU.isContiguous = true
      · have hstr : strd = cStrides (n :: rest) := by
          have h4 : (strd == cStrides (n :: rest)) = true := hc
          exact eq_of_beq h4
        rw [hnarr2, if_pos hc]
        show NDArray.elemAt ⟨n :: rest, cStrides (n :: rest), DType.bool, dat⟩ idx
          = NDArray.elemAt ⟨n :: rest, strd, DType.bool, dat⟩ idx
        rw [hstr]
      · rw [hnarr2, if_neg hc]
        show NDArray.elemAt ⟨n :: rest, cStrides (n :: rest), DType.bool,
            (contiguousCopy bU).data⟩ idx
          = NDArray.elemAt ⟨n :: rest, strd, DType.bool, dat⟩ idx
        have hl : NDArray.elemAt ⟨n :: rest, cStrides (n :: rest), DType.bool,
            (contiguousCopy bU).data⟩ idx = (contiguousCopy bU).elemAt idx := rfl
        rw [hl, elemAt_contiguousCopy bU idx hidx]
        rfl
    simp only [boolEqElems, beq_self_eq_true, Bool.true_and, List.all_eq_true]
    intro idx hidx
    rw [helem idx hidx]
    simp

/-- Witness for the amended C3: a length-4 boolean array round-trips through a
4-point POINT attribute set, coming back boolean-typed and element-wise
equal. -/
theorem C3_bool_roundtrip_rank_le_2_witness :
    (demo4.append (NpInput.nd ⟨[4], [1], DType.bool, [1, 0, 1, 0]⟩) "mask2" false).2 = none
    ∧ (((demo4.append (NpInput.nd ⟨[4], [1], DType.bool, [1, 0, 1, 0]⟩) "mask2"
          false).1.bitNames.get demo4.association).contains "mask2") = true
    ∧ ∃ a : NDArray,
        (demo4.append (NpInput.nd ⟨[4], [1], DType.bool, [1, 0, 1, 0]⟩) "mask2"
            false).1.get_array (ArrKey.name "mask2")
          = Except.ok (GetResult.ndarr "mask2" a)
        ∧ a.dtype = DType.bool
        ∧ boolEqElems a ⟨[4], [1], DType.bool, [1, 0, 1, 0]⟩ = true :=
  C3_bool_roundtrip_rank_le_2 demo4 ⟨[4], [1], DType.bool, [1, 0, 1, 0]⟩ "mask2" rfl
    (by decide) 4 [] rfl 4 rfl rfl
